import Mathlib

/-!
# Verification of the Unizo MCP SDK core (`unizo_sdk`)

A shallow embedding, in Lean 4, of the tool-catalog normalizer, the catalog
filter, the action dispatcher and the CrewAI / LangChain framework projectors
of the `unizo_sdk` Python package, together with theorems settling the
specification's claims about them.

Modelling conventions:
* Python runtime values (JSON-decoded data, kwargs mappings, schema dicts)
  are the inductive type `Val`.
* A raised Python exception is the error side of `Except PyErr _`; the
  constructors of `PyErr` mirror the exception classes the code raises or
  catches (`unizo_core.exceptions` plus the relevant builtins).
* `json.loads` is an external library function; the embedding takes the
  parser as an explicit argument `loads : String → Except String Val`
  (the error side is the decode failure's message).  Applying `json.loads`
  to a non-string raises `TypeError`, modelled in `pyJsonLoads`.
* Coroutines are embedded as plain functions; the network transport's
  behaviour (the MCP session's `list_tools`/`call_tool` results) enters as
  an explicit argument describing the outcome of the remote call.
-/

namespace Unizo

/-- A Python runtime value, as produced by `json.loads` and passed around
the SDK (dicts keep insertion order, so an association list is faithful). -/
inductive Val where
  | none_ : Val
  | bool (b : Bool) : Val
  | int (n : Int) : Val
  | str (s : String) : Val
  | list (xs : List Val) : Val
  | dict (kvs : List (String × Val)) : Val

/-- Python truthiness (`if x:`) restricted to the values of `Val`:
`None`, `False`, `0`, `""`, `[]` and `{}` are falsy, everything else truthy. -/
def Val.truthy : Val → Bool
  | .none_ => false
  | .bool b => b
  | .int n => n != 0
  | .str s => s ≠ ""
  | .list xs => !xs.isEmpty
  | .dict kvs => !kvs.isEmpty

/-- First binding of a key in a Python dict (`d[k]` / membership order). -/
def Val.lookup (kvs : List (String × Val)) (k : String) : Option Val :=
  (kvs.find? (fun p => p.1 = k)).map (·.2)

/-- The exception classes the embedded code raises or catches:
`unizo_core.exceptions.UnizoError`'s subclasses plus the builtins involved
(`ValueError`, `TypeError`, `KeyError`, `AttributeError`,
`json.JSONDecodeError`).  Every constructor carries `str(e)`. -/
inductive PyErr where
  | valueError (msg : String) : PyErr
  | typeError (msg : String) : PyErr
  | keyError (msg : String) : PyErr
  | attributeError (msg : String) : PyErr
  | jsonDecodeError (msg : String) : PyErr
  | authenticationError (msg : String) : PyErr
  | toolExecutionError (msg : String) : PyErr
deriving DecidableEq, Repr

/-- `str(e)`: the message an exception prints as. -/
def PyErr.msg : PyErr → String
  | .valueError m | .typeError m | .keyError m | .attributeError m
  | .jsonDecodeError m | .authenticationError m | .toolExecutionError m => m

/-- Whether an exception is the domain `AuthenticationError`. -/
def PyErr.isAuthenticationError : PyErr → Bool
  | .authenticationError _ => true
  | _ => false

/-- Whether an exception is the domain `ToolExecutionError`. -/
def PyErr.isToolExecutionError : PyErr → Bool
  | .toolExecutionError _ => true
  | _ => false

/-- `unizo_core.actions.Action`: the closed enumeration of operation names. -/
inductive Action where
  | LIST_SERVICES | LIST_INTEGRATIONS | LIST_ORGANIZATIONS | LIST_COLLECTIONS
  | CONFIRM_TICKET_CREATION | CREATE_TICKET | LIST_TICKETS | HEALTH_CHECK
deriving DecidableEq, Repr

/-- `Action.value`: each member's string value (actions.py). -/
def Action.value : Action → String
  | .LIST_SERVICES => "list_services"
  | .LIST_INTEGRATIONS => "list_integrations"
  | .LIST_ORGANIZATIONS => "list_organizations"
  | .LIST_COLLECTIONS => "list_collections"
  | .CONFIRM_TICKET_CREATION => "confirm_ticket_creation"
  | .CREATE_TICKET => "create_ticket"
  | .LIST_TICKETS => "list_tickets"
  | .HEALTH_CHECK => "health_check"

/-- `Action[s]`: lookup by member name; `none` models the `KeyError` of a
name that is no member of the enumeration. -/
def Action.fromName (s : String) : Option Action :=
  if s = "LIST_SERVICES" then some .LIST_SERVICES
  else if s = "LIST_INTEGRATIONS" then some .LIST_INTEGRATIONS
  else if s = "LIST_ORGANIZATIONS" then some .LIST_ORGANIZATIONS
  else if s = "LIST_COLLECTIONS" then some .LIST_COLLECTIONS
  else if s = "CONFIRM_TICKET_CREATION" then some .CONFIRM_TICKET_CREATION
  else if s = "CREATE_TICKET" then some .CREATE_TICKET
  else if s = "LIST_TICKETS" then some .LIST_TICKETS
  else if s = "HEALTH_CHECK" then some .HEALTH_CHECK
  else none

/-- A raw tool descriptor as returned by the MCP session's `list_tools()`:
`{name, description, inputSchema}`, where `inputSchema` is either an
already-structured value or a string (client.py handles both). -/
structure RawTool where
  name : String
  description : String
  inputSchema : Val

/-- The `parameters` object built by `UnizoToolSet.get_tools` (client.py
lines 60–67): literally `{"type": "object", "properties": ..., "required": ...}`. -/
structure Params where
  type_ : String
  properties : Val
  required : Val

/-- One entry of the canonical tool list `UnizoToolSet.get_tools` returns:
`{"name": ..., "description": ..., "parameters": ...}`. -/
structure CanonTool where
  name : String
  description : String
  parameters : Params

/-- `dict(x)`: copying a mapping succeeds; on the other JSON-decoded values
(`str`, `list`, `int`, …) `dict()` raises (the pair-iterable corner of
Python's `dict()` is not reachable from JSON objects' sub-values used here
and is modelled as the same raise). -/
def pyDictCopy : Val → Except PyErr Val
  | .dict kvs => .ok (.dict kvs)
  | _ => .error (.typeError "cannot convert to dict")

/-- `x.get(k, default)`: defined on dicts, an `AttributeError` elsewhere. -/
def pyGet (v : Val) (k : String) (dflt : Val) : Except PyErr Val :=
  match v with
  | .dict kvs => .ok ((Val.lookup kvs k).getD dflt)
  | _ => .error (.attributeError "object has no attribute get")

/-- The per-tool body of `UnizoToolSet.get_tools` (client.py lines 49–67):
parse a string `inputSchema` (a `json.JSONDecodeError` is caught and an
empty schema `{}` substituted); then build the parameters object with
`properties = dict(input_schema) if input_schema else {}` and
`required = input_schema.get("required", []) if input_schema else []`. -/
def normalizeTool (loads : String → Except String Val) (tool : RawTool) :
    Except PyErr CanonTool := do
  let input_schema : Val :=
    match tool.inputSchema with
    | .str s =>
      match loads s with
      | .ok v => v
      | .error _ => .dict []
    | v => v
  let props ← if input_schema.truthy then pyDictCopy input_schema else pure (.dict [])
  let req ← if input_schema.truthy then pyGet input_schema "required" (.list []) else pure (.list [])
  pure { name := tool.name
         description := tool.description
         parameters := { type_ := "object", properties := props, required := req } }

/-- The action filter of `UnizoToolSet.get_tools` (client.py lines 68–71):
`if actions:` (so `None` and the empty list both skip filtering), then keep
the tools whose `name` is among the actions' string values, in order. -/
def filterTools (tools : List CanonTool) (actions : Option (List Action)) :
    List CanonTool :=
  match actions with
  | none => tools
  | some acts =>
    if acts.isEmpty then tools
    else tools.filter (fun t => (acts.map Action.value).contains t.name)

/-- `UnizoToolSet.get_tools` (client.py lines 41–77) given the raw tool list
the session returned: normalize each tool, filter by `actions`; the whole
loop sits in one `try`, whose `except Exception` re-raises any failure as
`ToolExecutionError("Failed to fetch tools: <msg>")`. -/
def getTools (loads : String → Except String Val) (rawTools : List RawTool)
    (actions : Option (List Action)) : Except PyErr (List CanonTool) :=
  match rawTools.mapM (normalizeTool loads) with
  | .ok tools => .ok (filterTools tools actions)
  | .error e => .error (.toolExecutionError ("Failed to fetch tools: " ++ e.msg))

/-- The state `UnizoToolSet.__init__` leaves behind on success. -/
structure ToolSetState where
  api_key : String
  server_url : String

/-- `UnizoToolSet.__init__` (client.py lines 18–26): `if not api_key:` raises
`ValueError("UNIZO_API_KEY is required")`; otherwise stores the key and URL
and performs no network access (the session starts as `None`). -/
def initToolSet (api_key : String) (server_url : String) :
    Except PyErr ToolSetState :=
  if api_key = "" then .error (.valueError "UNIZO_API_KEY is required")
  else .ok { api_key := api_key, server_url := server_url }

/-- One item of a call result's `content` list: `json.loads(content.text)`
is applied to each item that `hasattr(content, 'text')`; items without a
text payload are skipped. -/
inductive ContentItem where
  | withText (text : String) : ContentItem
  | noText : ContentItem

/-- The result envelope `session.call_tool` resolves to: a possibly-absent
(or `None`) `structuredContent` field and a `content` list. -/
structure CallResult where
  structuredContent : Option Val
  content : List ContentItem

/-- `[json.loads(content.text) for content in result.content if hasattr(content, 'text')]`:
the collected parse results, or the first decode failure's message (which
propagates out of the comprehension). -/
def collectTexts (loads : String → Except String Val) :
    List ContentItem → Except String (List Val)
  | [] => .ok []
  | .noText :: rest => collectTexts loads rest
  | .withText s :: rest => do
    let v ← loads s
    let vs ← collectTexts loads rest
    pure (v :: vs)

/-- The single-element unwrap of `UnizoToolSet.execute_action` (client.py
line 89): `tool_result[0] if isinstance(tool_result, list) and
len(tool_result) == 1 else tool_result`. -/
def unwrapSingle : Val → Val
  | .list [x] => x
  | v => v

/-- `UnizoToolSet.execute_action` (client.py lines 78–92) given the outcome
of `session.call_tool` on an established session: a raised transport error
is the `.error` side of `call`.  The body selects `structuredContent` when
the attribute is present and truthy, otherwise parses the text-bearing
content items; every exception of the `try` block (the transport fault or a
`json.loads` failure) is re-raised as
`ToolExecutionError("Failed to execute action: <msg>")`; finally a
one-element list result is unwrapped. -/
def executeAction (loads : String → Except String Val)
    (call : Except String CallResult) : Except PyErr Val :=
  match call with
  | .error m => .error (.toolExecutionError ("Failed to execute action: " ++ m))
  | .ok r =>
    let inner : Except String Val :=
      match r.structuredContent with
      | some s => if s.truthy then .ok s else (collectTexts loads r.content).map .list
      | none => (collectTexts loads r.content).map .list
    match inner with
    | .error m => .error (.toolExecutionError ("Failed to execute action: " ++ m))
    | .ok v => .ok (unwrapSingle v)

/-- The Pydantic field type the projectors infer for one property: the
`prop_type` local of the schema loops (`str` unless the property schema's
`"type"` is `"integer"` or `"boolean"`). -/
inductive PyType where
  | str_ : PyType
  | int : PyType
  | bool : PyType
deriving DecidableEq, Repr

/-- One generated Pydantic field: its inferred type and its default marker —
`true` stands for the Ellipsis default (mandatory), `false` for the `None`
default (optional). -/
structure FieldSpec where
  type_ : PyType
  mandatory : Bool
deriving DecidableEq, Repr

/-- `prop_name in y` for the values `schema.get("required", [])` can hold:
list membership compares `==` against each element (a string equals only an
equal string), dict membership checks keys, string membership is the
substring test; `in` on the remaining values raises `TypeError`. -/
def pyContains (v : Val) (name : String) : Except PyErr Bool :=
  match v with
  | .list xs => .ok (xs.any fun x => match x with | .str t => t == name | _ => false)
  | .dict kvs => .ok (kvs.any fun p => p.1 == name)
  | .str s => .ok (decide (name.toList <:+: s.toList))
  | _ => .error (.typeError "argument of type is not iterable")

/-- `x.items()`: defined on dicts, an `AttributeError` elsewhere. -/
def pyItems (v : Val) : Except PyErr (List (String × Val)) :=
  match v with
  | .dict kvs => .ok kvs
  | _ => .error (.attributeError "object has no attribute items")

/-- The `prop_type` inference both projector loops perform
(unizo_crewai/toolset.py lines 61–68, unizo_langchain/toolset.py lines
25–32): `str` unless `prop_schema` is a dict whose `"type"` is exactly
`"integer"` or `"boolean"`. -/
def inferPropType (prop_schema : Val) : PyType :=
  match prop_schema with
  | .dict kvs =>
    match Val.lookup kvs "type" with
    | some (.str "integer") => .int
    | some (.str "boolean") => .bool
    | _ => .str_
  | _ => .str_

/-- The `fields` dict both projector loops build
(unizo_crewai/toolset.py lines 60–69, unizo_langchain/toolset.py lines
24–33, identical code): for each `(prop_name, prop_schema)` of
`schema.get("properties", {}).items()`, the pair
`(prop_type, None if prop_name not in schema.get("required", []) else ...)`. -/
def buildFields (properties : Val) (required : Val) :
    Except PyErr (List (String × FieldSpec)) := do
  let props ← pyItems properties
  props.mapM fun (prop_name, prop_schema) => do
    let req ← pyContains required prop_name
    pure (prop_name, { type_ := inferPropType prop_schema, mandatory := req })

/-- The Generated Parameter Schema of the CrewAI projector: the field loop
of `UnizoCrewAIToolSet.get_tools` (unizo_crewai/toolset.py lines 59–69),
whose body is `buildFields`. -/
def crewaiFields (properties required : Val) :
    Except PyErr (List (String × FieldSpec)) :=
  buildFields properties required

/-- The Generated Parameter Schema of the LangChain projector: the field
loop of `UnizoLangChainToolSet.get_tools` (unizo_langchain/toolset.py lines
23–33), character-for-character the same loop as the CrewAI projector's. -/
def langchainFields (properties required : Val) :
    Except PyErr (List (String × FieldSpec)) :=
  buildFields properties required

/-- A CrewAI tool object as `UnizoCrewAIToolSet.get_tools` constructs it
(unizo_crewai/toolset.py lines 70–81): name, description, the resolved
`Action[name.upper()]` and the generated `args_schema` are all fixed in the
`UnizoCrewAITool` constructor at creation time. -/
structure CrewAITool where
  name : String
  description : String
  action : Action
  args_schema : List (String × FieldSpec)

/-- `UnizoCrewAIToolSet.get_tools` (unizo_crewai/toolset.py lines 48–83):
the inherited catalog fetch + filter, then per record the generated schema
and `Action[name.upper()]` (a missing member raises `KeyError`, uncaught). -/
def crewaiGetTools (loads : String → Except String Val) (rawTools : List RawTool)
    (actions : Option (List Action)) : Except PyErr (List CrewAITool) := do
  let tools ← getTools loads rawTools actions
  tools.mapM fun t => do
    let fields ← crewaiFields t.parameters.properties t.parameters.required
    match Action.fromName t.name.toUpper with
    | some a =>
      pure { name := t.name, description := t.description,
             action := a, args_schema := fields }
    | none => throw (.keyError t.name.toUpper)

/-- The outcome of the awaited `execute_action` call inside
`UnizoCrewAITool._async_run`: it completed (returning a value or raising)
or `asyncio.wait_for` hit the 30-second cap. -/
inductive AsyncOutcome where
  | completed (r : Except PyErr Val) : AsyncOutcome
  | timedOut : AsyncOutcome

/-- `UnizoCrewAITool._async_run` (unizo_crewai/toolset.py lines 20–33):
`except asyncio.TimeoutError` returns
`{"error": "Tool <name> timed out after 30 seconds"}`, `except Exception`
returns `{"error": "Failed to execute <name>: <msg>"}`; both exception
arms return data, so the coroutine always returns a value. -/
def crewaiAsyncRun (name : String) (o : AsyncOutcome) : Val :=
  match o with
  | .completed (.ok v) => v
  | .completed (.error e) =>
    .dict [("error", .str ("Failed to execute " ++ name ++ ": " ++ e.msg))]
  | .timedOut =>
    .dict [("error", .str ("Tool " ++ name ++ " timed out after 30 seconds"))]

/-- `UnizoCrewAITool._run` (unizo_crewai/toolset.py lines 35–45): drives
`_async_run` through the event loop; any exception of that scheduling (the
`loop` argument's `.error` side, e.g. the `RuntimeError` of
`run_until_complete` on a running loop) is caught by the surrounding
`except Exception` and returned as `{"error": "Failed to execute <name>: <msg>"}`.
The result type is `Except PyErr Val` to show which arm could raise: none does. -/
def crewaiRun (name : String) (loop : Except String AsyncOutcome) :
    Except PyErr Val :=
  match loop with
  | .error m => .ok (.dict [("error", .str ("Failed to execute " ++ name ++ ": " ++ m))])
  | .ok o => .ok (crewaiAsyncRun name o)

/-- A LangChain `StructuredTool` as `UnizoLangChainToolSet.get_tools` builds
it (unizo_langchain/toolset.py lines 39–64).  `name`, `description` and
`args_schema` are passed to `StructuredTool.from_function` at creation time
and are per-tool.  The bound coroutine `tool_func`, however, reads the
enclosing function's variables `name` and `args_schema` when it is invoked:
Python closures capture those variables by reference, and the loop rebinds
them each iteration, so after `get_tools` returns every tool's coroutine
sees the values of the final iteration — recorded here as `invokeName` and
`invokeSchema`. -/
structure LangChainTool where
  name : String
  description : String
  args_schema : List (String × FieldSpec)
  invokeName : String
  invokeSchema : List (String × FieldSpec)

/-- `UnizoLangChainToolSet.get_tools` (unizo_langchain/toolset.py lines
12–68): the inherited catalog fetch + filter, the generated schema per
record, and per-tool `StructuredTool`s whose coroutine closes over the loop
variables (late binding: the final record's name and schema). -/
def langchainGetTools (loads : String → Except String Val)
    (rawTools : List RawTool) (actions : Option (List Action)) :
    Except PyErr (List LangChainTool) := do
  let tools ← getTools loads rawTools actions
  let named ← tools.mapM fun t => do
    let fields ← langchainFields t.parameters.properties t.parameters.required
    pure (t.name, t.description, fields)
  match named.getLast? with
  | none => pure []
  | some (lastName, _, lastFields) =>
    pure (named.map fun (n, d, f) =>
      { name := n, description := d, args_schema := f,
        invokeName := lastName, invokeSchema := lastFields })

/-- The body of `tool_func` (unizo_langchain/toolset.py lines 39–57) for a
given closure state (`invokeName`, `invokeSchema`), schema validator and
dispatcher: if the kwargs contain a `"properties"` key, `json.loads` is
applied to its value — on a non-string that raises `TypeError`, which the
`except json.JSONDecodeError` clause does not catch, so it propagates raw;
a decode failure is re-raised as
`ToolExecutionError("Invalid JSON in properties: <msg>")`.  Validation
failure (`args_schema(**actual_params)`) is re-raised as
`ToolExecutionError("Invalid parameters for <name>: <msg>")`; then the
action `Action[name.upper()]` is dispatched. -/
def langchainToolFunc (loads : String → Except String Val)
    (validate : List (String × FieldSpec) → Val → Except String Unit)
    (dispatch : Action → Val → Except PyErr Val)
    (invokeName : String) (invokeSchema : List (String × FieldSpec))
    (params : List (String × Val)) : Except PyErr Val := do
  let actual_params : Val ←
    match Val.lookup params "properties" with
    | none => pure (.dict params)
    | some v =>
      match v with
      | .str s =>
        match loads s with
        | .ok j => pure j
        | .error m => throw (.toolExecutionError ("Invalid JSON in properties: " ++ m))
      | _ => throw (.typeError "the JSON object must be str, bytes or bytearray")
  match validate invokeSchema actual_params with
  | .error m =>
    throw (.toolExecutionError ("Invalid parameters for " ++ invokeName ++ ": " ++ m))
  | .ok _ =>
    match Action.fromName invokeName.toUpper with
    | some a => dispatch a actual_params
    | none => throw (.keyError invokeName.toUpper)

/-! ## Theorems settling the claims -/

/-- C1.  The normalizer does NOT emit the input schema's `properties`
sub-object: `client.py` line 64 writes
`"properties": dict(input_schema) if input_schema else {}`, copying the
whole input schema.  Evaluated at the schema of
`test_core.py::TestGetTools::test_json_string_input_schema`
(`{"type": "object", "properties": {"foo": {"type": "string"}}, "required": ["foo"]}`):
the emitted `properties` mapping is that entire object — its keys are
`type`, `properties`, `required`; the key `foo` that the repository's own
test asserts to be present is absent. -/
theorem c1_properties_is_whole_schema :
    normalizeTool (fun _ => .error "unused")
      { name := "string_schema_tool", description := "Tool with JSON-string schema",
        inputSchema := .dict [("type", .str "object"),
          ("properties", .dict [("foo", .dict [("type", .str "string")])]),
          ("required", .list [.str "foo"])] }
      = .ok { name := "string_schema_tool", description := "Tool with JSON-string schema",
              parameters :=
                { type_ := "object",
                  properties := .dict [("type", .str "object"),
                    ("properties", .dict [("foo", .dict [("type", .str "string")])]),
                    ("required", .list [.str "foo"])],
                  required := .list [.str "foo"] } }
    ∧ Val.lookup [("type", Val.str "object"),
        ("properties", .dict [("foo", .dict [("type", .str "string")])]),
        ("required", .list [.str "foo"])] "foo" = none := by
  constructor
  · rfl
  · rfl

/-- C3.  In `UnizoLangChainToolSet.get_tools` the coroutine `tool_func`
closes over the loop variables `name` and `args_schema`; invoked after the
loop it dispatches the LAST tool's action and validates against the last
tool's schema.  Evaluated at a two-tool catalog: the `create_ticket` tool's
coroutine resolves the action from `"health_check"`, not from its own name. -/
theorem c3_langchain_closure_late_binding :
    langchainGetTools (fun _ => .error "unused")
      [ { name := "create_ticket", description := "Create a new ticket", inputSchema := .dict [] },
        { name := "health_check", description := "Check server health", inputSchema := .dict [] } ]
      none
      = .ok
        [ { name := "create_ticket", description := "Create a new ticket",
            args_schema := [], invokeName := "health_check", invokeSchema := [] },
          { name := "health_check", description := "Check server health",
            args_schema := [], invokeName := "health_check", invokeSchema := [] } ]
    ∧ "create_ticket" ≠ "health_check" := by
  exact ⟨rfl, by decide⟩

/-- C6, counterexample.  Constructing the SDK with an empty access key
raises the builtin `ValueError("UNIZO_API_KEY is required")` (client.py
lines 19–21, asserted by `test_core.py::test_empty_api_key_raises`), which
is not the domain taxonomy's `AuthenticationError`. -/
theorem c6_empty_key_raises_valueerror_not_autherror :
    initToolSet "" "http://api.unizo.ai/mcp/ticketing"
      = .error (.valueError "UNIZO_API_KEY is required")
    ∧ PyErr.isAuthenticationError (.valueError "UNIZO_API_KEY is required") = false := by
  exact ⟨rfl, rfl⟩

/-- C6, amended.  Constructing the SDK with an empty access-key string
raises `ValueError("UNIZO_API_KEY is required")` synchronously at
construction time (the constructor performs no network access: it only
checks the key and stores the configuration). -/
theorem c6_empty_key_raises_valueerror (url : String) :
    initToolSet "" url = .error (.valueError "UNIZO_API_KEY is required") := by
  rfl

/-- C2.  For a canonical record whose `required` list is `[a, b]` and whose
`properties` mapping holds exactly `a`, `b`, `c`, the Generated Parameter
Schema of each projector (CrewAI and LangChain) has exactly the fields
`a`, `b`, `c`, with `a` and `b` mandatory (Ellipsis default) and `c`
optional (`None` default). -/
theorem c2_required_fields_projection (a b c : String) (pa pb pc : Val)
    (hca : c ≠ a) (hcb : c ≠ b) :
    crewaiFields (.dict [(a, pa), (b, pb), (c, pc)]) (.list [.str a, .str b])
      = .ok [(a, ⟨inferPropType pa, true⟩), (b, ⟨inferPropType pb, true⟩),
             (c, ⟨inferPropType pc, false⟩)]
    ∧ langchainFields (.dict [(a, pa), (b, pb), (c, pc)]) (.list [.str a, .str b])
      = .ok [(a, ⟨inferPropType pa, true⟩), (b, ⟨inferPropType pb, true⟩),
             (c, ⟨inferPropType pc, false⟩)] := by
  have ha : (a == a) = true := by simp
  have hb : (b == b) = true := by simp
  have hac : (a == c) = false := by simp [beq_eq_false_iff_ne]; exact fun h => hca h.symm
  have hbc : (b == c) = false := by simp [beq_eq_false_iff_ne]; exact fun h => hcb h.symm
  have key : buildFields (.dict [(a, pa), (b, pb), (c, pc)]) (.list [.str a, .str b])
      = .ok [(a, ⟨inferPropType pa, true⟩), (b, ⟨inferPropType pb, true⟩),
             (c, ⟨inferPropType pc, false⟩)] := by
    simp [buildFields, pyItems, pyContains, List.mapM, List.mapM.loop,
      Except.instMonad, Except.bind, Except.pure, ha, hb, hac, hbc]
  exact ⟨key, key⟩

/-- C2, witness: the round-trip at the `create_ticket`-style schema with
required `ticket_name`, `integration_id` and optional `ticket_description`. -/
theorem c2_required_fields_projection_witness :
    crewaiFields
        (.dict [("ticket_name", .dict [("type", .str "string")]),
                ("integration_id", .dict [("type", .str "integer")]),
                ("ticket_description", .dict [("type", .str "boolean")])])
        (.list [.str "ticket_name", .str "integration_id"])
      = .ok [("ticket_name", ⟨.str_, true⟩), ("integration_id", ⟨.int, true⟩),
             ("ticket_description", ⟨.bool, false⟩)]
    ∧ langchainFields
        (.dict [("ticket_name", .dict [("type", .str "string")]),
                ("integration_id", .dict [("type", .str "integer")]),
                ("ticket_description", .dict [("type", .str "boolean")])])
        (.list [.str "ticket_name", .str "integration_id"])
      = .ok [("ticket_name", ⟨.str_, true⟩), ("integration_id", ⟨.int, true⟩),
             ("ticket_description", ⟨.bool, false⟩)] :=
  c2_required_fields_projection "ticket_name" "integration_id" "ticket_description"
    (.dict [("type", .str "string")]) (.dict [("type", .str "integer")])
    (.dict [("type", .str "boolean")]) (by decide) (by decide)

/-- C7.  With a non-empty action filter, `get_tools` returns exactly the
normalized records whose name equals one of the actions' string values, in
catalog order (`List.filter` keeps the original order and silently skips
actions matching no record); with the filter omitted it returns all records
unchanged. -/
theorem c7_action_filter (loads : String → Except String Val)
    (raws : List RawTool) (acts : List Action) (tools : List CanonTool)
    (h : raws.mapM (normalizeTool loads) = .ok tools) (hne : acts ≠ []) :
    getTools loads raws (some acts)
      = .ok (tools.filter fun t => (acts.map Action.value).contains t.name)
    ∧ getTools loads raws none = .ok tools := by
  have hempty : acts.isEmpty = false := by
    cases acts with
    | nil => exact absurd rfl hne
    | cons x xs => rfl
  constructor
  · unfold getTools
    rw [h]
    simp [filterTools, hempty]
  · unfold getTools
    rw [h]
    simp [filterTools]

/-- C7, witness: the spec's scenario — a 4-tool catalog filtered by
`[CREATE_TICKET, HEALTH_CHECK]` yields exactly `create_ticket` and
`health_check`, in that relative order. -/
theorem c7_action_filter_witness :
    getTools (fun _ => .error "unused")
      [ { name := "list_services", description := "List all available services", inputSchema := .dict [] },
        { name := "create_ticket", description := "Create a new ticket", inputSchema := .dict [] },
        { name := "list_tickets", description := "List tickets in a collection", inputSchema := .dict [] },
        { name := "health_check", description := "Check server health", inputSchema := .dict [] } ]
      (some [Action.CREATE_TICKET, Action.HEALTH_CHECK])
      = .ok
        [ { name := "create_ticket", description := "Create a new ticket",
            parameters := { type_ := "object", properties := .dict [], required := .list [] } },
          { name := "health_check", description := "Check server health",
            parameters := { type_ := "object", properties := .dict [], required := .list [] } } ] :=
  (c7_action_filter (fun _ => .error "unused")
    [ { name := "list_services", description := "List all available services", inputSchema := .dict [] },
      { name := "create_ticket", description := "Create a new ticket", inputSchema := .dict [] },
      { name := "list_tickets", description := "List tickets in a collection", inputSchema := .dict [] },
      { name := "health_check", description := "Check server health", inputSchema := .dict [] } ]
    [Action.CREATE_TICKET, Action.HEALTH_CHECK]
    [ { name := "list_services", description := "List all available services",
        parameters := { type_ := "object", properties := .dict [], required := .list [] } },
      { name := "create_ticket", description := "Create a new ticket",
        parameters := { type_ := "object", properties := .dict [], required := .list [] } },
      { name := "list_tickets", description := "List tickets in a collection",
        parameters := { type_ := "object", properties := .dict [], required := .list [] } },
      { name := "health_check", description := "Check server health",
        parameters := { type_ := "object", properties := .dict [], required := .list [] } } ]
    rfl (by decide)).1

/-- C4, counterexample.  The single-element unwrap of client.py line 89
applies to the selected result whatever branch produced it: a non-empty
structured-content field that is itself a one-element list is unwrapped to
its element rather than returned as-is. -/
theorem c4_structured_one_element_list_unwrapped :
    executeAction (fun _ => .error "unused")
      (.ok { structuredContent := some (.list [.dict [("status", .str "structured_ok")]]),
             content := [] })
      = .ok (.dict [("status", .str "structured_ok")])
    ∧ Val.dict [("status", .str "structured_ok")]
        ≠ Val.list [.dict [("status", .str "structured_ok")]] :=
  ⟨rfl, fun h => nomatch h⟩

/-- C4, amended.  `execute_action` unwraps its result in priority order:
a truthy structured-content field wins and the content list is ignored;
otherwise the text payloads of the content list are deserialized and the
collected list is returned; and in either case a result that is a list of
exactly one element is unwrapped to that single element (`unwrapSingle`),
so structured content is returned as-is only when it is not itself a
one-element list. -/
theorem c4_unwrap_priority_amended (loads : String → Except String Val)
    (r : CallResult) (s : Val) (vs : List Val) :
    (r.structuredContent = some s → s.truthy = true →
      executeAction loads (.ok r) = .ok (unwrapSingle s))
    ∧ (r.structuredContent = some s → s.truthy = false →
        collectTexts loads r.content = .ok vs →
        executeAction loads (.ok r) = .ok (unwrapSingle (.list vs)))
    ∧ (r.structuredContent = none →
        collectTexts loads r.content = .ok vs →
        executeAction loads (.ok r) = .ok (unwrapSingle (.list vs))) := by
  refine ⟨?_, ?_, ?_⟩
  · intro hsc htr
    simp [executeAction, hsc, htr]
  · intro hsc htr hct
    simp [executeAction, hsc, htr, hct, Except.map]
  · intro hsc hct
    simp [executeAction, hsc, hct, Except.map]

/-- C5.  Every exception of the dispatch path — the transport fault raised
by `session.call_tool` or the `json.loads` failure while unwrapping — is
re-raised as `ToolExecutionError("Failed to execute action: <msg>")`; a
caller of `execute_action` never sees any other exception kind. -/
theorem c5_execute_wraps_gateway_errors (loads : String → Except String Val)
    (m : String) :
    executeAction loads (.error m)
      = .error (.toolExecutionError ("Failed to execute action: " ++ m))
    ∧ ∀ call e, executeAction loads call = .error e →
        e.isToolExecutionError = true := by
  refine ⟨rfl, ?_⟩
  intro call e h
  cases call with
  | error m' =>
    simp only [executeAction] at h
    cases h
    rfl
  | ok r =>
    rcases r with ⟨sc, content⟩
    cases sc with
    | none =>
      cases hct : collectTexts loads content with
      | error m' =>
        simp [executeAction, hct, Except.map] at h
        rw [← h]
        rfl
      | ok vs =>
        simp [executeAction, hct, Except.map] at h
    | some s =>
      by_cases hs : s.truthy
      · simp [executeAction, hs] at h
      · cases hct : collectTexts loads content with
        | error m' =>
          simp [executeAction, hs, hct, Except.map] at h
          rw [← h]
          rfl
        | ok vs =>
          simp [executeAction, hs, hct, Except.map] at h

/-- C8.  `UnizoCrewAITool._run` never propagates an exception: every
invocation path returns a value (`.ok`); the 30-second timeout returns the
error-shaped object naming the tool and a timeout message, a failing
dispatch returns the error-shaped object with the failure's message, and a
failure of the event-loop machinery itself is caught the same way. -/
theorem c8_crewai_run_never_raises (name : String)
    (loop : Except String AsyncOutcome) :
    (∃ v, crewaiRun name loop = .ok v)
    ∧ crewaiRun name (.ok .timedOut)
        = .ok (.dict [("error", .str ("Tool " ++ name ++ " timed out after 30 seconds"))])
    ∧ (∀ e, crewaiRun name (.ok (.completed (.error e)))
        = .ok (.dict [("error", .str ("Failed to execute " ++ name ++ ": " ++ e.msg))]))
    ∧ (∀ m, crewaiRun name (.error m)
        = .ok (.dict [("error", .str ("Failed to execute " ++ name ++ ": " ++ m))])) := by
  refine ⟨?_, rfl, fun e => rfl, fun m => rfl⟩
  cases loop with
  | error m => exact ⟨_, rfl⟩
  | ok o =>
    cases o with
    | completed r =>
      cases r with
      | ok v => exact ⟨v, rfl⟩
      | error e => exact ⟨_, rfl⟩
    | timedOut => exact ⟨_, rfl⟩

/-- The input domain C9 quantifies over for one tool's `inputSchema`: an
already-structured schema object, a string deserializing to such an object,
or a malformed string (one `json.loads` rejects). -/
def SchemaDom (loads : String → Except String Val) (v : Val) : Prop :=
  (∃ kvs, v = .dict kvs) ∨
  (∃ s, v = .str s ∧
    ((∃ kvs, loads s = .ok (.dict kvs)) ∨ (∃ m, loads s = .error m)))

/-- Over the domain of C9 the per-tool normalization never raises. -/
theorem normalizeTool_ok_of_dom (loads : String → Except String Val)
    (t : RawTool) (h : SchemaDom loads t.inputSchema) :
    ∃ c, normalizeTool loads t = .ok c := by
  rcases h with ⟨kvs, hv⟩ | ⟨s, hv, ⟨kvs, hs⟩ | ⟨m, hs⟩⟩
  · cases kvs with
    | nil => exact ⟨_, by simp only [normalizeTool, hv]; rfl⟩
    | cons p rest => exact ⟨_, by simp only [normalizeTool, hv]; rfl⟩
  · cases kvs with
    | nil => exact ⟨_, by simp only [normalizeTool, hv, hs]; rfl⟩
    | cons p rest => exact ⟨_, by simp only [normalizeTool, hv, hs]; rfl⟩
  · exact ⟨_, by simp only [normalizeTool, hv, hs]; rfl⟩

/-- `mapM` over `Except` succeeds, preserving length, when every element
succeeds. -/
theorem mapM_ok_of_forall {α β : Type} (f : α → Except PyErr β) :
    ∀ l : List α, (∀ x ∈ l, ∃ y, f x = .ok y) →
      ∃ l2, l.mapM f = .ok l2 ∧ l2.length = l.length := by
  intro l
  induction l with
  | nil => exact fun _ => ⟨[], rfl, rfl⟩
  | cons x xs ih =>
    intro h
    obtain ⟨y, hy⟩ := h x (List.mem_cons_self x xs)
    obtain ⟨l2, hl2, hlen⟩ := ih (fun z hz => h z (List.mem_cons_of_mem x hz))
    refine ⟨y :: l2, ?_, by simp [hlen]⟩
    rw [List.mapM_cons, hy, hl2]
    rfl

/-- C9.  Over every raw catalog whose tools' `inputSchema`s are structured
objects, strings deserializing to such objects, or malformed strings,
`get_tools` never raises and still produces one canonical record per tool;
a tool whose string schema fails to deserialize gets the empty defaults
(`properties = {}` and `required = []`) instead of aborting the fetch. -/
theorem c9_normalize_never_raises (loads : String → Except String Val)
    (raws : List RawTool) (h : ∀ t ∈ raws, SchemaDom loads t.inputSchema) :
    (∃ tools, getTools loads raws none = .ok tools ∧ tools.length = raws.length)
    ∧ ∀ t s m, t.inputSchema = .str s → loads s = .error m →
        normalizeTool loads t
          = .ok { name := t.name, description := t.description,
                  parameters := { type_ := "object", properties := .dict [],
                                  required := .list [] } } := by
  constructor
  · obtain ⟨tools, hm, hlen⟩ :=
      mapM_ok_of_forall (normalizeTool loads) raws
        (fun t ht => normalizeTool_ok_of_dom loads t (h t ht))
    refine ⟨tools, ?_, hlen⟩
    unfold getTools
    rw [hm]
    rfl
  · intro t s m hv hs
    simp only [normalizeTool, hv, hs]
    rfl

/-- A concrete stand-in for `json.loads` used by witnesses: one string it
accepts (as a schema object) and every other string it rejects. -/
def loadsFix : String → Except String Val := fun s =>
  if s = "good" then .ok (.dict [("required", .list [.str "foo"])])
  else .error "Expecting value: line 1 column 1 (char 0)"

/-- C9, witness: a 3-tool catalog mixing a structured schema, a
well-formed string schema and a malformed string schema is fully produced. -/
theorem c9_normalize_never_raises_witness :
    (∃ tools,
      getTools loadsFix
        [ { name := "a", description := "", inputSchema := .dict [("properties", .dict [])] },
          { name := "b", description := "", inputSchema := .str "good" },
          { name := "c", description := "", inputSchema := .str "not json" } ]
        none
        = .ok tools
      ∧ tools.length = 3)
    ∧ ∀ t s m, RawTool.inputSchema t = .str s → loadsFix s = .error m →
        normalizeTool loadsFix t
          = .ok { name := t.name, description := t.description,
                  parameters := { type_ := "object", properties := .dict [],
                                  required := .list [] } } :=
  c9_normalize_never_raises loadsFix
    [ { name := "a", description := "", inputSchema := .dict [("properties", .dict [])] },
      { name := "b", description := "", inputSchema := .str "good" },
      { name := "c", description := "", inputSchema := .str "not json" } ]
    (by
      intro t ht
      simp only [List.mem_cons, List.not_mem_nil, or_false] at ht
      rcases ht with rfl | rfl | rfl
      · exact Or.inl ⟨_, rfl⟩
      · exact Or.inr ⟨"good", rfl, Or.inl ⟨_, rfl⟩⟩
      · exact Or.inr ⟨"not json", rfl, Or.inr ⟨_, rfl⟩⟩)

/-- C10.  In the LangChain `tool_func`, a `"properties"` key whose value is
not a string reaches `json.loads` and raises a raw `TypeError` — the
`except json.JSONDecodeError` clause does not catch it, so it is not
converted to the domain `ToolExecutionError`; only a string value that
fails JSON parsing is converted into
`ToolExecutionError("Invalid JSON in properties: <msg>")`. -/
theorem c10_properties_nonstring_raw_typeerror
    (loads : String → Except String Val)
    (validate : List (String × FieldSpec) → Val → Except String Unit)
    (dispatch : Action → Val → Except PyErr Val)
    (invokeName : String) (invokeSchema : List (String × FieldSpec))
    (params : List (String × Val)) (v : Val) :
    (Val.lookup params "properties" = some v → (∀ s, v ≠ .str s) →
      langchainToolFunc loads validate dispatch invokeName invokeSchema params
        = .error (.typeError "the JSON object must be str, bytes or bytearray"))
    ∧ PyErr.isToolExecutionError
        (.typeError "the JSON object must be str, bytes or bytearray") = false
    ∧ (∀ s m, Val.lookup params "properties" = some (.str s) →
        loads s = .error m →
        langchainToolFunc loads validate dispatch invokeName invokeSchema params
          = .error (.toolExecutionError ("Invalid JSON in properties: " ++ m))) := by
  refine ⟨?_, rfl, ?_⟩
  · intro hv hns
    cases v with
    | str s => exact absurd rfl (hns s)
    | none_ => simp only [langchainToolFunc, hv]; rfl
    | bool b => simp only [langchainToolFunc, hv]; rfl
    | int n => simp only [langchainToolFunc, hv]; rfl
    | list xs => simp only [langchainToolFunc, hv]; rfl
    | dict kvs => simp only [langchainToolFunc, hv]; rfl
  · intro s m hv hs
    simp only [langchainToolFunc, hv, hs]
    rfl

end Unizo
